import Mathlib

/-!
# Verification of the answer-evaluation and progress/reward pipeline

This development embeds, in Lean, the answer evaluators, the reward
calculation, and the progress/reward propagation pipeline of the e-learning
backend (Django apps `questions`, `lessons`, `gamification`, `users`), and
proves or refutes the specified properties about them.

Embedding conventions:

* JSON answer payloads are modelled by the `AnswerPayload` inductive.  Each
  constructor stands for a JSON shape *after* the element conversions the
  views perform (`int(a)` for choice ids, `str(x)` for reorder/drag-drop
  ids).  The `isinstance` shape checks of the views, and the element
  conversion failures, all return `(False, <shape message>)` without writing;
  they are collapsed into the shape-mismatch branch of each validator.
* Python's `sorted` on integer lists is modelled by insertion sort
  (`pySorted`); Python's `str.lower` by `pyLower` (the claims only exercise
  ASCII strings, where the two agree).
* Python dicts (answer keys, submitted blank/target maps) are modelled as
  association lists with `List.lookup`; the Django ORM helpers
  `get_correct_answers` / `get_correct_mappings` build dicts with distinct
  keys, matching the association-list reading.
* Machine integers: all counters in the models are Django
  `PositiveIntegerField`s, and Python integers are unbounded, so `Nat` is
  used without wrap-around.  Timestamps are modelled by their calendar day
  number (an `Int`): the streak logic of `_update_user_streak` only ever
  inspects `date()` differences.
* `DecimalField` percentages are modelled by `ℚ`; the float round-trip in
  `(completed / total) * 100` is exact for every count the claims exercise.
-/

/-- Feedback dictionary built by the validators in
`QuestionSubmitView` (questions/views.py).  The optional keys
(`explanation`, `incorrect_blanks`, `incorrect_targets`) are `none` / `[]`
when the corresponding Python key is absent. -/
structure Feedback where
  correct : Bool
  message : String
  explanation : Option String := none
  incorrect_blanks : List Nat := []
  incorrect_targets : List String := []
deriving Repr, DecidableEq

/-- A submitted answer payload, by JSON shape (see the conventions above):
a list of choice ids, a map from blank index to string, a map from target id
to a list of draggable-item ids, or an ordered list of item ids. -/
inductive AnswerPayload where
  | choices (ids : List Int)
  | blanks (entries : List (Nat × String))
  | placements (entries : List (String × List String))
  | ordering (items : List String)
deriving Repr, DecidableEq

/-- The per-variant answer-key data of a question
(questions/models.py, table-per-subtype inheritance):
`get_correct_choices`, `get_correct_answers`, `get_correct_mappings`,
`get_correct_order` respectively. -/
inductive QuestionVariant where
  | multipleChoice (is_multiple_selection : Bool) (correct_choices : List Int)
  | fillBlank (case_sensitive : Bool) (correct_answers : List (Nat × List String))
  | dragDrop (correct_mappings : List (String × List String))
  | reorder (correct_order : List String)
deriving Repr, DecidableEq

/-- The fields of `Question` (questions/models.py) the submission pipeline
reads, together with the variant answer key. -/
structure Question where
  jems : Nat := 10
  xp_available : Nat := 50
  explanation : String := ""
  variant : QuestionVariant
deriving Repr, DecidableEq

/-- Python's `sorted` on a list of integers, modelled as insertion sort. -/
def pySorted (xs : List Int) : List Int :=
  List.insertionSort (· ≤ ·) xs

/-- Python's `str.lower`, modelled character-wise. -/
def pyLower (s : String) : String :=
  String.mk (s.data.map Char.toLower)

/-- The `if question.explanation:` truthiness test used by every validator
when building success feedback. -/
def explanationField (explanation : String) : Option String :=
  if explanation = "" then none else some explanation

/-- `QuestionSubmitView._validate_multiple_choice` (questions/views.py
lines 237-271): shape check, single-selection arity check, then comparison
of `sorted(answer)` with `sorted(correct_answers)`. -/
def validate_multiple_choice (is_multiple_selection : Bool)
    (correct_choices : List Int) (explanation : String)
    (answer : AnswerPayload) : Bool × Feedback :=
  match answer with
  | .choices ids =>
    if !is_multiple_selection && ids.length > 1 then
      (false, { correct := false, message := "Only one answer allowed for this question" })
    else if pySorted ids = pySorted correct_choices then
      (true, { correct := true, message := "Correct!",
               explanation := explanationField explanation })
    else
      (false, { correct := false, message := "Incorrect. Try again!" })
  | _ => (false, { correct := false, message := "Answer must be a list of choice IDs" })

/-- The per-blank correctness test inside
`QuestionSubmitView._validate_fill_blank` (questions/views.py
lines 310-316): exact membership when `case_sensitive`, otherwise
lower-cased membership. -/
def fb_blank_correct (case_sensitive : Bool) (valid_answers : List String)
    (user_answer : String) : Bool :=
  if case_sensitive then
    valid_answers.contains user_answer
  else
    (valid_answers.map pyLower).contains (pyLower user_answer)

/-- The submitted-blank loop of `_validate_fill_blank` (questions/views.py
lines 293-319): walks the submitted `(index, answer)` pairs in order,
fails with the first index absent from the answer key (`.error idx`,
the `Invalid blank index` early return), and otherwise collects the list
of incorrect blank indices. -/
def fb_scan (case_sensitive : Bool) (correct_answers : List (Nat × List String)) :
    List (Nat × String) → Except Nat (List Nat)
  | [] => .ok []
  | (idx, ua) :: rest =>
    match correct_answers.lookup idx with
    | none => .error idx
    | some valid =>
      match fb_scan case_sensitive correct_answers rest with
      | .error e => .error e
      | .ok bad =>
        .ok (if fb_blank_correct case_sensitive valid ua then bad else idx :: bad)

/-- `QuestionSubmitView._validate_fill_blank` (questions/views.py
lines 273-333). -/
def validate_fill_blank (case_sensitive : Bool)
    (correct_answers : List (Nat × List String)) (explanation : String)
    (answer : AnswerPayload) : Bool × Feedback :=
  match answer with
  | .blanks entries =>
    match fb_scan case_sensitive correct_answers entries with
    | .error idx =>
      (false, { correct := false, message := "Invalid blank index: " ++ toString idx })
    | .ok incorrect_blanks =>
      if incorrect_blanks.isEmpty then
        (true, { correct := true, message := "Correct!",
                 explanation := explanationField explanation })
      else
        (false, { correct := false, message := "Incorrect. Try again!",
                  incorrect_blanks := incorrect_blanks })
  | _ =>
    (false, { correct := false,
              message := "Answer must be a dictionary mapping blank indices to answers" })

/-- The per-target test inside `_validate_drag_drop` (questions/views.py
lines 372-375): a target is wrong as soon as one submitted item is not
among its valid items. -/
def dd_target_wrong (valid_items : List String) (item_indices : List String) : Bool :=
  item_indices.any (fun i => !valid_items.contains i)

/-- The submitted-target loop of `_validate_drag_drop` (questions/views.py
lines 353-375): fails with the first target id absent from the key,
otherwise collects the incorrect target ids in submission order. -/
def dd_scan (correct_mappings : List (String × List String)) :
    List (String × List String) → Except String (List String)
  | [] => .ok []
  | (target, items) :: rest =>
    match correct_mappings.lookup target with
    | none => .error target
    | some valid =>
      match dd_scan correct_mappings rest with
      | .error e => .error e
      | .ok bad =>
        .ok (if dd_target_wrong valid items then target :: bad else bad)

/-- `QuestionSubmitView._validate_drag_drop` (questions/views.py
lines 335-389). -/
def validate_drag_drop (correct_mappings : List (String × List String))
    (explanation : String) (answer : AnswerPayload) : Bool × Feedback :=
  match answer with
  | .placements entries =>
    match dd_scan correct_mappings entries with
    | .error target =>
      (false, { correct := false, message := "Invalid target ID: " ++ target })
    | .ok incorrect_targets =>
      if incorrect_targets.isEmpty then
        (true, { correct := true, message := "Correct!",
                 explanation := explanationField explanation })
      else
        (false, { correct := false, message := "Incorrect. Try again!",
                  incorrect_targets := incorrect_targets })
  | _ =>
    (false, { correct := false,
              message := "Answer must be a dictionary mapping target IDs to draggable item IDs" })

/-- `QuestionSubmitView._validate_reorder` (questions/views.py
lines 391-418): exact list equality with the stored correct order. -/
def validate_reorder (correct_order : List String) (explanation : String)
    (answer : AnswerPayload) : Bool × Feedback :=
  match answer with
  | .ordering items =>
    if items = correct_order then
      (true, { correct := true, message := "Correct sequence!",
               explanation := explanationField explanation })
    else
      (false, { correct := false, message := "Incorrect sequence. Try again!" })
  | _ =>
    (false, { correct := false,
              message := "Answer must be a list of item IDs in the correct order" })

/-- `QuestionSubmitView._evaluate_answer` (questions/views.py
lines 216-235): dispatch on the question type. -/
def evaluate_answer (q : Question) (answer : AnswerPayload) : Bool × Feedback :=
  match q.variant with
  | .multipleChoice ms cc => validate_multiple_choice ms cc q.explanation answer
  | .fillBlank cs ca => validate_fill_blank cs ca q.explanation answer
  | .dragDrop cm => validate_drag_drop cm q.explanation answer
  | .reorder co => validate_reorder co q.explanation answer

/-- A `UserQuestionAttempt` row (questions/models.py): the fields written by
`QuestionSubmitView.create`.  The acting user is fixed (the whole model is
per-user), so the `user` column is omitted. -/
structure UserQuestionAttempt where
  question : Nat
  lesson : Nat
  user_answer : AnswerPayload
  is_correct : Bool
  attempt_number : Nat
  jems_earned : Nat
deriving Repr, DecidableEq

/-- A `UserXP` ledger row (gamification/models.py) for the acting user:
amount, `source_type` string, and the generic `object_id` reference. -/
structure UserXP where
  amount : Nat
  source_type : String
  object_id : Option Nat
deriving Repr, DecidableEq

/-- A `UserJem` ledger row (gamification/models.py) for the acting user. -/
structure UserJem where
  amount : Nat
  source_type : String
  object_id : Option Nat
deriving Repr, DecidableEq

/-- The gamification fields of `CustomUser` (users/models.py).
`last_activity` is the calendar day of the last recorded activity. -/
structure CustomUser where
  total_xp : Nat
  jems : Nat
  streak_days : Nat
  last_activity : Option Int
deriving Repr, DecidableEq

/-- A `UserLessonProgress` row (lessons/models.py) for the acting user and
the lesson under study. -/
structure UserLessonProgress where
  completion_percentage : ℚ
  xp_earned : Nat
  completed_date : Option Int
deriving Repr, DecidableEq

/-- A `LessonReview` row (lessons/models.py) for the review under study. -/
structure LessonReview where
  score : Nat
  total_possible : Nat
  completion_percentage : ℚ
  completion_time : Option Int
deriving Repr, DecidableEq

/-- A `LessonReviewQuestionAttempt` row (lessons/models.py); the fields the
claims observe. -/
structure LessonReviewQuestionAttempt where
  is_correct : Bool
  xp_earned : Nat
deriving Repr, DecidableEq

/-- The fields of `UserCourseEnrollment` (courses/models.py) written by
`LessonCompleteView._update_course_progress`. -/
structure UserCourseEnrollment where
  completion_percentage : ℚ
  is_completed : Bool
deriving Repr, DecidableEq

/-- The persistent state the pipeline reads and writes, for one acting user,
one lesson-progress row, one review and one enrollment (every claim is
about a single such key; other keys' rows are untouched by these
operations). -/
structure PipelineState where
  attempts : List UserQuestionAttempt
  xp_ledger : List UserXP
  jem_ledger : List UserJem
  user : CustomUser
  lesson_progress : UserLessonProgress
  review : LessonReview
  review_attempts : List LessonReviewQuestionAttempt
  enrollment : Option UserCourseEnrollment
deriving Repr, DecidableEq

/-- `UserQuestionAttempt.objects.filter(user, question, lesson).count()`
(questions/views.py lines 127-129). -/
def attempt_count (st : PipelineState) (question_id lesson_id : Nat) : Nat :=
  (st.attempts.filter
    (fun a => a.question == question_id && a.lesson == lesson_id)).length

/-- The reward computation inlined in `QuestionSubmitView.create`
(questions/views.py lines 131-145): full reward on a correct first attempt,
floored decayed reward on later correct attempts, zero otherwise.
Returns `(jems_earned, xp_earned)`. -/
def question_rewards (q : Question) (is_correct : Bool)
    (attempt_count : Nat) : Nat × Nat :=
  if is_correct then
    if attempt_count = 0 then
      (q.jems, q.xp_available)
    else
      (max 1 (q.jems / (attempt_count + 1)),
       max 10 (q.xp_available / (attempt_count + 1)))
  else
    (0, 0)

/-- `QuestionSubmitView._update_user_streak` (questions/views.py
lines 420-438), acting on the in-memory user record: first-activity,
next-day, gap and same-day branches, comparing the day of the last
activity with `today`. -/
def update_user_streak (today : Int) (user : CustomUser) : CustomUser :=
  match user.last_activity with
  | none => { user with streak_days := 1 }
  | some last_day =>
    if today - last_day = 1 then
      { user with streak_days := user.streak_days + 1 }
    else if today - last_day > 1 then
      { user with streak_days := 1 }
    else
      user

/-- What `QuestionSubmitView.create` returns and persists: the new state,
the evaluation outcome and feedback, the reward amounts reported in
`gamification_updates`, and the created attempt row. -/
structure SubmitResult where
  state : PipelineState
  is_correct : Bool
  feedback : Feedback
  xp_earned : Nat
  jems_earned : Nat
  attempt : UserQuestionAttempt
deriving Repr, DecidableEq

/-- `QuestionSubmitView.create` (questions/views.py lines 106-214), for a
question that exists (`get_object_or_404` succeeded) and a submission whose
serializer was valid.  Follows the source order: evaluate, count prior
attempts, compute rewards, insert the attempt row, then - only when
correct - append ledger rows, bump the cached totals, set `last_activity`
to now, and finally run the streak update (on the already-updated user). -/
def submit_question (question_id lesson_id : Nat) (q : Question)
    (answer : AnswerPayload) (today : Int) (st : PipelineState) : SubmitResult :=
  let is_correct := (evaluate_answer q answer).1
  let feedback := (evaluate_answer q answer).2
  let n := attempt_count st question_id lesson_id
  let jems_earned := (question_rewards q is_correct n).1
  let xp_earned := (question_rewards q is_correct n).2
  let attempt : UserQuestionAttempt :=
    { question := question_id, lesson := lesson_id, user_answer := answer,
      is_correct := is_correct, attempt_number := n + 1,
      jems_earned := jems_earned }
  let st1 := { st with attempts := st.attempts ++ [attempt] }
  let st2 :=
    if is_correct then
      let xpL :=
        if xp_earned > 0 then
          st1.xp_ledger ++ [⟨xp_earned, "question", some question_id⟩]
        else st1.xp_ledger
      let u1 :=
        if xp_earned > 0 then
          { st1.user with total_xp := st1.user.total_xp + xp_earned }
        else st1.user
      let jemL :=
        if jems_earned > 0 then
          st1.jem_ledger ++ [⟨jems_earned, "question", some question_id⟩]
        else st1.jem_ledger
      let u2 :=
        if jems_earned > 0 then { u1 with jems := u1.jems + jems_earned }
        else u1
      let u3 := { u2 with last_activity := some today }
      let u4 := update_user_streak today u3
      { st1 with xp_ledger := xpL, jem_ledger := jemL, user := u4 }
    else st1
  { state := st2, is_correct := is_correct, feedback := feedback,
    xp_earned := xp_earned, jems_earned := jems_earned, attempt := attempt }

/-- `UserSlideProgressViewSet._update_lesson_progress` (lessons/views.py
lines 242-292), having read `total_slides` required slides and
`completed_slides` completed required ones: store the recomputed
percentage, and on the first time it reaches 100 stamp `completed_date`
and award the remaining lesson XP as one `UserXP` row.  Note that this
path does not touch the user's cached `total_xp`. -/
def update_lesson_progress (lesson_id xp_available : Nat)
    (total_slides completed_slides : Nat) (now : Int)
    (st : PipelineState) : PipelineState :=
  if total_slides = 0 then st
  else
    let pct : ℚ := (completed_slides : ℚ) / (total_slides : ℚ) * 100
    if 100 ≤ pct ∧ st.lesson_progress.completed_date = none then
      if st.lesson_progress.xp_earned < xp_available then
        let xp_to_award := xp_available - st.lesson_progress.xp_earned
        { st with
          lesson_progress :=
            { completion_percentage := pct,
              xp_earned := st.lesson_progress.xp_earned + xp_to_award,
              completed_date := some now },
          xp_ledger := st.xp_ledger ++ [⟨xp_to_award, "lesson", some lesson_id⟩] }
      else
        { st with
          lesson_progress :=
            { st.lesson_progress with
              completion_percentage := pct, completed_date := some now } }
    else
      { st with
        lesson_progress :=
          { st.lesson_progress with completion_percentage := pct } }

/-- `LessonCompleteView._update_course_progress` (lessons/views.py
lines 641-686), with the course's published-lesson count and the user's
completed-lesson count read from the store: no-op without an enrollment
row, otherwise store the recomputed percentage and, on the first time it
reaches 100, mark the enrollment completed and award the fixed 500 XP
course bonus (ledger row plus cached total). -/
def update_course_progress (course_id : Nat)
    (total_lessons completed_lessons : Nat) (st : PipelineState) : PipelineState :=
  match st.enrollment with
  | none => st
  | some enrollment =>
    if total_lessons = 0 then st
    else
      let pct : ℚ := (completed_lessons : ℚ) / (total_lessons : ℚ) * 100
      if 100 ≤ pct ∧ enrollment.is_completed = false then
        { st with
          enrollment := some { completion_percentage := pct, is_completed := true },
          xp_ledger := st.xp_ledger ++ [⟨500, "course", some course_id⟩],
          user := { st.user with total_xp := st.user.total_xp + 500 } }
      else
        { st with enrollment := some { enrollment with completion_percentage := pct } }

/-- `LessonCompleteView.update` (lessons/views.py lines 571-639) for a
published lesson with an existing progress row: reject (no writes) until
every required slide is completed; then, only if `completed_date` is not
yet set, stamp it, force the percentage to 100, award the remaining lesson
XP (ledger row plus cached total), and update the course progress. -/
def lesson_complete (lesson_id course_id xp_available : Nat)
    (required_slides completed_slides : Nat)
    (total_lessons completed_lessons : Nat) (now : Int)
    (st : PipelineState) : PipelineState :=
  if completed_slides < required_slides then st
  else if st.lesson_progress.completed_date = none then
    let st1 :=
      if st.lesson_progress.xp_earned < xp_available then
        let xp_to_award := xp_available - st.lesson_progress.xp_earned
        { st with
          lesson_progress :=
            { completion_percentage := 100,
              xp_earned := st.lesson_progress.xp_earned + xp_to_award,
              completed_date := some now },
          xp_ledger := st.xp_ledger ++ [⟨xp_to_award, "lesson", some lesson_id⟩],
          user := { st.user with total_xp := st.user.total_xp + xp_to_award } }
      else
        { st with
          lesson_progress :=
            { st.lesson_progress with
              completion_percentage := 100, completed_date := some now } }
    update_course_progress course_id total_lessons completed_lessons st1
  else st

/-- `LessonReviewQuestionViewSet.submit_answer` (lessons/views.py
lines 431-511) after its own inline evaluation produced `is_correct`
(that evaluation is a read-only function of the question and payload):
append the review attempt, bump the score if correct, recompute the
percentage from the post-insert attempt count, and whenever that count has
reached `total_possible` stamp `completion_time` with the current time and
append a review `UserXP` row of this submission's `xp_earned`.  Note the
completion branch is not guarded by `completion_time` already being set,
and does not touch the cached `total_xp`. -/
def submit_review_answer (review_id : Nat) (is_correct : Bool)
    (xp_available : Nat) (now : Int) (st : PipelineState) : PipelineState :=
  let xp_earned := if is_correct then xp_available else 0
  let st1 :=
    { st with review_attempts :=
        st.review_attempts ++ [({ is_correct := is_correct, xp_earned := xp_earned } : LessonReviewQuestionAttempt)] }
  let r1 : LessonReview :=
    if is_correct then { st1.review with score := st1.review.score + 1 }
    else st1.review
  let total_attempts := st1.review_attempts.length
  let r2 : LessonReview :=
    { r1 with completion_percentage :=
        (total_attempts : ℚ) / (r1.total_possible : ℚ) * 100 }
  if r2.total_possible ≤ total_attempts then
    { st1 with
      review := { r2 with completion_time := some now },
      xp_ledger := st1.xp_ledger ++ [(⟨xp_earned, "review", some review_id⟩ : UserXP)] }
  else
    { st1 with review := r2 }

/-- One invocation of the pipeline, with the environment data each view
reads (slide counts, lesson counts, evaluation outcome, clock) supplied as
parameters. -/
inductive PipelineOp where
  | submitQ (question_id lesson_id : Nat) (q : Question)
      (answer : AnswerPayload) (today : Int)
  | slideProgress (lesson_id xp_available total_slides completed_slides : Nat)
      (now : Int)
  | lessonComplete (lesson_id course_id xp_available : Nat)
      (required_slides completed_slides total_lessons completed_lessons : Nat)
      (now : Int)
  | courseProgress (course_id total_lessons completed_lessons : Nat)
  | reviewSubmit (review_id : Nat) (is_correct : Bool) (xp_available : Nat)
      (now : Int)
deriving Repr, DecidableEq

/-- Execute one pipeline operation. -/
def run_op (st : PipelineState) : PipelineOp → PipelineState
  | .submitQ qid lid q a today => (submit_question qid lid q a today st).state
  | .slideProgress lid xa ts cs now => update_lesson_progress lid xa ts cs now st
  | .lessonComplete lid cid xa rs cs tl cl now =>
      lesson_complete lid cid xa rs cs tl cl now st
  | .courseProgress cid tl cl => update_course_progress cid tl cl st
  | .reviewSubmit rid ic xa now => submit_review_answer rid ic xa now st

/-- Execute a sequence of pipeline operations, oldest first. -/
def run_ops (ops : List PipelineOp) (st : PipelineState) : PipelineState :=
  ops.foldl run_op st

/-- A fresh user as created by the defaults of users/models.py:
`total_xp=0`, `jems=5`, `streak_days=0`, no activity yet. -/
def initUser : CustomUser :=
  { total_xp := 0, jems := 5, streak_days := 0, last_activity := none }

/-- A fresh lesson-progress row as written by `LessonStartView.create`
(lessons/views.py lines 553-561). -/
def initLessonProgress : UserLessonProgress :=
  { completion_percentage := 0, xp_earned := 0, completed_date := none }

/-- A fresh review row as created by `start_review` (lessons/views.py
lines 403-407), sized by its sampled question count. -/
def initReview (total_possible : Nat) : LessonReview :=
  { score := 0, total_possible := total_possible,
    completion_percentage := 0, completion_time := none }

/-- The pipeline state right after the user starts the lesson and a review
of `total_possible` questions, before any submission: empty ledgers and
attempt logs, a fresh enrollment. -/
def initState (total_possible : Nat) : PipelineState :=
  { attempts := [], xp_ledger := [], jem_ledger := [], user := initUser,
    lesson_progress := initLessonProgress, review := initReview total_possible,
    review_attempts := [],
    enrollment := some { completion_percentage := 0, is_completed := false } }

/-- Sum of the `UserXP` ledger amounts (the authoritative total the cached
`total_xp` is supposed to mirror). -/
def xp_ledger_total (st : PipelineState) : Nat :=
  (st.xp_ledger.map (fun t => t.amount)).sum

/-- Sum of the `UserXP` amounts in a ledger fragment recorded for
completing the given lesson. -/
def lesson_award_list (lesson_id : Nat) (l : List UserXP) : Nat :=
  ((l.filter
      (fun t => t.source_type == "lesson" && t.object_id == some lesson_id)).map
    (fun t => t.amount)).sum

/-- Sum of the `UserXP` amounts recorded for completing the given lesson. -/
def lesson_award_total (lesson_id : Nat) (st : PipelineState) : Nat :=
  lesson_award_list lesson_id st.xp_ledger

/-- The cached-counter consistency the ledger design calls for: the user's
cached `total_xp` equals the sum of their `UserXP` ledger. -/
def CacheConsistent (st : PipelineState) : Prop :=
  st.user.total_xp = xp_ledger_total st

/-- Restriction of an operation to the lesson under study: lesson-progress
operations carry the studied lesson's id and its configured
`xp_available`; all other operations are unrestricted. -/
def LessonOpFor (lesson_id xp_available : Nat) : PipelineOp → Prop
  | .slideProgress lid xa _ _ _ => lid = lesson_id ∧ xa = xp_available
  | .lessonComplete lid _ xa _ _ _ _ _ => lid = lesson_id ∧ xa = xp_available
  | _ => True

/-- Invariant tying the lesson-completion ledger entries to the progress
row: the lesson's awarded ledger total equals the row's `xp_earned`, which
never exceeds the lesson's configured XP. -/
def LessonInv (lesson_id xp_available : Nat) (st : PipelineState) : Prop :=
  lesson_award_total lesson_id st = st.lesson_progress.xp_earned ∧
  st.lesson_progress.xp_earned ≤ xp_available

/-!
## Concurrency model for the attempt numbering

`QuestionSubmitView.create` touches the attempt store twice: it reads
`UserQuestionAttempt.objects.filter(...).count()` (questions/views.py
lines 127-129) and later inserts a row with
`attempt_number = attempt_count + 1` (line 154).  `transaction.atomic`
groups the writes but takes no lock on the counted rows (no
`select_for_update`), so under the store's default read-committed
isolation two concurrent submissions of the same key may interleave their
count-read and insert.  Each submission is modelled as two atomic events
against a shared attempt store.
-/

/-- One atomic store event of a submission `w`: its count-read or its
insert. -/
inductive RaceEvent where
  | read (w : Nat)
  | insert (w : Nat)
deriving Repr, DecidableEq

/-- Shared attempt store plus each submission's remembered count. -/
structure RaceState where
  read_counts : List (Nat × Nat)
  attempt_numbers : List Nat
deriving Repr, DecidableEq

/-- Execute one store event: a read remembers the current row count, an
insert appends `remembered count + 1` as the new row's attempt number
(an insert before its own read does nothing; valid schedules read first). -/
def race_step (s : RaceState) : RaceEvent → RaceState
  | .read w =>
    { s with read_counts := s.read_counts ++ [(w, s.attempt_numbers.length)] }
  | .insert w =>
    match s.read_counts.lookup w with
    | some c => { s with attempt_numbers := s.attempt_numbers ++ [c + 1] }
    | none => s

/-- Run a schedule of store events from the empty store. -/
def race_run (events : List RaceEvent) : RaceState :=
  events.foldl race_step ⟨[], []⟩

/-- The fully serialized schedule of `k` submissions: each one's read is
immediately followed by its insert. -/
def serial_schedule (k : Nat) : List RaceEvent :=
  (List.range k).foldr (fun w acc => .read w :: .insert w :: acc) []

/-- A concrete single-selection multiple-choice question (one correct
choice, default rewards: 10 jems, 50 XP). -/
def q_mc_single : Question :=
  { jems := 10, xp_available := 50, explanation := "",
    variant := .multipleChoice false [1] }

/-- A concrete fill-in-the-blank question (case-insensitive, one blank). -/
def q_fb : Question :=
  { jems := 10, xp_available := 50, explanation := "",
    variant := .fillBlank false [(0, ["paris"])] }

/-- A user who was last active yesterday (day 9) with a 3-day streak. -/
def st_streak : PipelineState :=
  { initState 1 with
    user := { total_xp := 0, jems := 5, streak_days := 3, last_activity := some 9 } }

/-!
## Supporting lemmas
-/

theorem pySorted_eq_iff (a b : List Int) : pySorted a = pySorted b ↔ a.Perm b := by
  constructor
  · intro h
    have h1 : a.Perm (pySorted a) := (List.perm_insertionSort _ a).symm
    have h2 : (pySorted b).Perm b := List.perm_insertionSort _ b
    exact h1.trans (h ▸ h2)
  · intro h
    exact List.eq_of_perm_of_sorted
      ((List.perm_insertionSort _ a).trans (h.trans (List.perm_insertionSort _ b).symm))
      (List.sorted_insertionSort _ a) (List.sorted_insertionSort _ b)

theorem submit_question_is_correct (question_id lesson_id : Nat) (q : Question)
    (answer : AnswerPayload) (today : Int) (st : PipelineState) :
    (submit_question question_id lesson_id q answer today st).is_correct =
      (evaluate_answer q answer).1 := rfl

theorem submit_question_xp_earned (question_id lesson_id : Nat) (q : Question)
    (answer : AnswerPayload) (today : Int) (st : PipelineState) :
    (submit_question question_id lesson_id q answer today st).xp_earned =
      (question_rewards q (evaluate_answer q answer).1
        (attempt_count st question_id lesson_id)).2 := rfl

theorem submit_question_jems_earned (question_id lesson_id : Nat) (q : Question)
    (answer : AnswerPayload) (today : Int) (st : PipelineState) :
    (submit_question question_id lesson_id q answer today st).jems_earned =
      (question_rewards q (evaluate_answer q answer).1
        (attempt_count st question_id lesson_id)).1 := rfl

theorem submit_question_state_incorrect (question_id lesson_id : Nat) (q : Question)
    (answer : AnswerPayload) (today : Int) (st : PipelineState)
    (h : (evaluate_answer q answer).1 = false) :
    (submit_question question_id lesson_id q answer today st).state =
      { st with attempts := st.attempts ++
          [(submit_question question_id lesson_id q answer today st).attempt] } := by
  unfold submit_question
  simp [h]

/-!
## The claims
-/

/-- C1: for a correct submission with no prior attempts for
(user, question, lesson), the awarded XP and jems are the question's full
`xp_available` and `jems`; for the Nth correct attempt (prior count
`n = N - 1 > 0`) they are `max 10 (xp_available / N)` and
`max 1 (jems / N)` with integer division; for an incorrect submission both
are zero. -/
theorem C1_reward_policy (question_id lesson_id : Nat) (q : Question)
    (answer : AnswerPayload) (today : Int) (st : PipelineState) :
    ((submit_question question_id lesson_id q answer today st).is_correct = true →
      attempt_count st question_id lesson_id = 0 →
      (submit_question question_id lesson_id q answer today st).xp_earned =
        q.xp_available ∧
      (submit_question question_id lesson_id q answer today st).jems_earned =
        q.jems) ∧
    ((submit_question question_id lesson_id q answer today st).is_correct = true →
      0 < attempt_count st question_id lesson_id →
      (submit_question question_id lesson_id q answer today st).xp_earned =
        max 10 (q.xp_available / (attempt_count st question_id lesson_id + 1)) ∧
      (submit_question question_id lesson_id q answer today st).jems_earned =
        max 1 (q.jems / (attempt_count st question_id lesson_id + 1))) ∧
    ((submit_question question_id lesson_id q answer today st).is_correct = false →
      (submit_question question_id lesson_id q answer today st).xp_earned = 0 ∧
      (submit_question question_id lesson_id q answer today st).jems_earned = 0) := by
  rw [submit_question_is_correct, submit_question_xp_earned, submit_question_jems_earned]
  refine ⟨?_, ?_, ?_⟩
  · intro hc h0
    rw [hc, h0]
    simp [question_rewards]
  · intro hc hn
    rw [hc]
    simp [question_rewards, Nat.pos_iff_ne_zero.mp hn]
  · intro hc
    rw [hc]
    simp [question_rewards]

/-- Witness for C1: a correct first-attempt submission of the
single-choice question earns its full 50 XP and 10 jems. -/
theorem C1_reward_policy_witness :
    (submit_question 1 2 q_mc_single (.choices [1]) 0 (initState 1)).is_correct = true ∧
    attempt_count (initState 1) 1 2 = 0 ∧
    (submit_question 1 2 q_mc_single (.choices [1]) 0 (initState 1)).xp_earned = 50 ∧
    (submit_question 1 2 q_mc_single (.choices [1]) 0 (initState 1)).jems_earned = 10 := by
  have h := (C1_reward_policy 1 2 q_mc_single (.choices [1]) 0 (initState 1)).1
    (by decide) (by decide)
  exact ⟨by decide, by decide, h.1, h.2⟩

/-- C2 counterexample: submitting two choice ids to the single-selection
question does NOT abort before any write — `QuestionSubmitView.create`
persists a `UserQuestionAttempt` row for it (graded incorrect), contrary
to the claim that no attempt record is written. -/
theorem C2_counterexample :
    (submit_question 1 2 q_mc_single (.choices [1, 2]) 0 (initState 1)).state.attempts =
      [{ question := 1, lesson := 2, user_answer := .choices [1, 2],
         is_correct := false, attempt_number := 1, jems_earned := 0 }] ∧
    (submit_question 1 2 q_mc_single (.choices [1, 2]) 0 (initState 1)).feedback.message =
      "Only one answer allowed for this question" := by
  constructor
  · decide
  · decide

/-- C2 amended: a submission of more than one choice id to a
single-selection multiple-choice question is judged incorrect with the
distinct feedback message "Only one answer allowed for this question"
(not the wrong-answer message), earns nothing, and leaves the reward
ledgers and the user record untouched — but it is NOT rejected before
writing: a `UserQuestionAttempt` row with `is_correct = false` and the
next attempt number is persisted. -/
theorem C2_malformed_choice_graded_incorrect (q : Question)
    (correct_choices : List Int)
    (hv : q.variant = .multipleChoice false correct_choices)
    (ids : List Int) (hlen : 1 < ids.length)
    (question_id lesson_id : Nat) (today : Int) (st : PipelineState) :
    (submit_question question_id lesson_id q (.choices ids) today st).is_correct = false ∧
    (submit_question question_id lesson_id q (.choices ids) today st).feedback.message =
      "Only one answer allowed for this question" ∧
    (submit_question question_id lesson_id q (.choices ids) today st).state.attempts =
      st.attempts ++
        [{ question := question_id, lesson := lesson_id,
           user_answer := .choices ids, is_correct := false,
           attempt_number := attempt_count st question_id lesson_id + 1,
           jems_earned := 0 }] ∧
    (submit_question question_id lesson_id q (.choices ids) today st).xp_earned = 0 ∧
    (submit_question question_id lesson_id q (.choices ids) today st).jems_earned = 0 ∧
    (submit_question question_id lesson_id q (.choices ids) today st).state.xp_ledger =
      st.xp_ledger ∧
    (submit_question question_id lesson_id q (.choices ids) today st).state.jem_ledger =
      st.jem_ledger ∧
    (submit_question question_id lesson_id q (.choices ids) today st).state.user =
      st.user := by
  have heval : evaluate_answer q (.choices ids) =
      (false, { correct := false,
                message := "Only one answer allowed for this question" }) := by
    unfold evaluate_answer
    rw [hv]
    simp [validate_multiple_choice, hlen]
  have hst := submit_question_state_incorrect question_id lesson_id q (.choices ids)
    today st (by rw [heval])
  refine ⟨by rw [submit_question_is_correct, heval], ?_, ?_, ?_, ?_, ?_, ?_, ?_⟩
  · show (evaluate_answer q (.choices ids)).2.message = _
    rw [heval]
  · rw [hst]
    show st.attempts ++ [_] = st.attempts ++ [_]
    congr 2
    show ({ question := question_id, lesson := lesson_id, user_answer := .choices ids,
            is_correct := (evaluate_answer q (.choices ids)).1,
            attempt_number := attempt_count st question_id lesson_id + 1,
            jems_earned := (question_rewards q (evaluate_answer q (.choices ids)).1
              (attempt_count st question_id lesson_id)).1 } : UserQuestionAttempt) = _
    rw [heval]
    simp [question_rewards]
  · rw [submit_question_xp_earned, heval]
    simp [question_rewards]
  · rw [submit_question_jems_earned, heval]
    simp [question_rewards]
  · rw [hst]
  · rw [hst]
  · rw [hst]

/-- Witness for C2's amended statement at the concrete counterexample
input. -/
theorem C2_malformed_choice_witness :
    q_mc_single.variant = .multipleChoice false [1] ∧
    1 < ([1, 2] : List Int).length ∧
    (submit_question 1 2 q_mc_single (.choices [1, 2]) 0 (initState 1)).is_correct = false := by
  refine ⟨rfl, by decide, ?_⟩
  exact (C2_malformed_choice_graded_incorrect q_mc_single [1] rfl [1, 2]
    (by decide) 1 2 0 (initState 1)).1

/-- C7 counterexample: the evaluator does not compare unordered sets — it
compares sorted lists, so duplicates matter.  For a multiple-selection
question with correct choices {2, 5}, the submission `[2, 2, 5]` equals
the correct set as an unordered set, yet is judged incorrect. -/
theorem C7_counterexample :
    ([2, 2, 5] : List Int).toFinset = ([2, 5] : List Int).toFinset ∧
    (validate_multiple_choice true [2, 5] "" (.choices [2, 2, 5])).1 = false := by
  constructor
  · decide
  · decide

/-- C7 amended: a submitted list of choice ids is judged correct iff it is
a permutation (multiset-equal) of the list of correct choice ids — and,
for a single-selection question, at most one id was submitted.  For
duplicate-free submissions this coincides with unordered-set equality:
any reordering of the correct set is correct, and strict
supersets/subsets are incorrect. -/
theorem C7_multiple_choice_set_equality (is_multiple_selection : Bool)
    (correct_choices : List Int) (explanation : String) (ids : List Int) :
    (validate_multiple_choice is_multiple_selection correct_choices explanation
        (.choices ids)).1 = true ↔
      (ids.Perm correct_choices ∧
        (is_multiple_selection = true ∨ ids.length ≤ 1)) := by
  cases is_multiple_selection with
  | true =>
    simp [validate_multiple_choice]
    split
    · next hs => simp [(pySorted_eq_iff ids correct_choices).mp hs]
    · next hs => simp [← pySorted_eq_iff, hs]
  | false =>
    by_cases h : 1 < ids.length
    · simp [validate_multiple_choice, h]
    · simp [validate_multiple_choice, h, pySorted_eq_iff]
      split
      · next hp =>
        simp [hp]
        omega
      · next hp => simp [hp]

/-- C8: a submitted blank matches case-insensitively (equality after
lower-casing against any accepted answer) when the question's
case-sensitive flag is false, and by exact equality when it is true; in
particular `"Paris"` matches a stored `"paris"` only in the
case-insensitive mode, at the level of the full fill-blank validator. -/
theorem C8_fill_blank_case_sensitivity :
    (∀ (valid_answers : List String) (user_answer : String),
      fb_blank_correct false valid_answers user_answer = true ↔
        ∃ v ∈ valid_answers, pyLower v = pyLower user_answer) ∧
    (∀ (valid_answers : List String) (user_answer : String),
      fb_blank_correct true valid_answers user_answer = true ↔
        user_answer ∈ valid_answers) ∧
    (validate_fill_blank false [(0, ["paris"])] "" (.blanks [(0, "Paris")])).1 = true ∧
    (validate_fill_blank true [(0, ["paris"])] "" (.blanks [(0, "Paris")])).1 = false := by
  refine ⟨?_, ?_, by decide, by decide⟩
  · intro valid ua
    simp [fb_blank_correct, List.elem_iff, List.mem_map]
  · intro valid ua
    simp [fb_blank_correct, List.elem_iff]

/-- C10: an empty submitted mapping addresses no blank/target, so both the
fill-blank and the drag-drop validator judge it correct, and submitting it
as a first attempt through `QuestionSubmitView.create` earns the
question's full XP and jems. -/
theorem C10_empty_map_correct :
    (∀ case_sensitive correct_answers explanation,
      (validate_fill_blank case_sensitive correct_answers explanation
        (.blanks [])).1 = true) ∧
    (∀ correct_mappings explanation,
      (validate_drag_drop correct_mappings explanation
        (.placements [])).1 = true) ∧
    (∀ (q : Question) case_sensitive correct_answers
        (question_id lesson_id : Nat) (today : Int) (st : PipelineState),
      q.variant = .fillBlank case_sensitive correct_answers →
      attempt_count st question_id lesson_id = 0 →
      (submit_question question_id lesson_id q (.blanks []) today st).is_correct = true ∧
      (submit_question question_id lesson_id q (.blanks []) today st).xp_earned =
        q.xp_available ∧
      (submit_question question_id lesson_id q (.blanks []) today st).jems_earned =
        q.jems) ∧
    (∀ (q : Question) correct_mappings
        (question_id lesson_id : Nat) (today : Int) (st : PipelineState),
      q.variant = .dragDrop correct_mappings →
      attempt_count st question_id lesson_id = 0 →
      (submit_question question_id lesson_id q (.placements []) today st).is_correct = true ∧
      (submit_question question_id lesson_id q (.placements []) today st).xp_earned =
        q.xp_available ∧
      (submit_question question_id lesson_id q (.placements []) today st).jems_earned =
        q.jems) := by
  refine ⟨?_, ?_, ?_, ?_⟩
  · intro cs ca expl
    simp [validate_fill_blank, fb_scan]
  · intro cm expl
    simp [validate_drag_drop, dd_scan]
  · intro q cs ca question_id lesson_id today st hv h0
    have heval : (evaluate_answer q (.blanks [])).1 = true := by
      unfold evaluate_answer
      rw [hv]
      simp [validate_fill_blank, fb_scan]
    refine ⟨by rw [submit_question_is_correct, heval], ?_, ?_⟩
    · rw [submit_question_xp_earned, heval, h0]
      simp [question_rewards]
    · rw [submit_question_jems_earned, heval, h0]
      simp [question_rewards]
  · intro q cm question_id lesson_id today st hv h0
    have heval : (evaluate_answer q (.placements [])).1 = true := by
      unfold evaluate_answer
      rw [hv]
      simp [validate_drag_drop, dd_scan]
    refine ⟨by rw [submit_question_is_correct, heval], ?_, ?_⟩
    · rw [submit_question_xp_earned, heval, h0]
      simp [question_rewards]
    · rw [submit_question_jems_earned, heval, h0]
      simp [question_rewards]

/-- Witness for C10: submitting an empty blanks map to the concrete
fill-blank question as a first attempt is judged correct and earns its
full 50 XP. -/
theorem C10_empty_map_witness :
    q_fb.variant = .fillBlank false [(0, ["paris"])] ∧
    attempt_count (initState 1) 1 2 = 0 ∧
    (submit_question 1 2 q_fb (.blanks []) 0 (initState 1)).is_correct = true ∧
    (submit_question 1 2 q_fb (.blanks []) 0 (initState 1)).xp_earned = 50 := by
  have h := C10_empty_map_correct.2.2.1 q_fb false [(0, ["paris"])] 1 2 0
    (initState 1) rfl rfl
  exact ⟨rfl, rfl, h.1, h.2.1⟩

/-- C4 failing input: a review of one sampled question.  The first
submission stamps `completion_time` (day 5) and appends the
review-completion XP row; a second submission to the same, already
completed review OVERWRITES the timestamp (day 9) and appends a second
review XP row — `submit_answer` re-enters its completion branch whenever
the attempt count is ≥ `total_possible`, with no once-only guard. -/
theorem C4_bug :
    (run_ops [.reviewSubmit 7 true 50 5] (initState 1)).review.completion_time =
      some 5 ∧
    (run_ops [.reviewSubmit 7 true 50 5, .reviewSubmit 7 false 50 9]
        (initState 1)).review.completion_time = some 9 ∧
    ((run_ops [.reviewSubmit 7 true 50 5, .reviewSubmit 7 false 50 9]
        (initState 1)).xp_ledger.filter
      (fun t => t.source_type == "review")).length = 2 := by
  refine ⟨rfl, rfl, rfl⟩

/-- C5 failing input: completing the last required slide of a lesson with
100 configured XP.  `_update_lesson_progress` appends the 100 XP lesson
`UserXP` row but never updates the cached `total_xp`, so the cache (0) no
longer equals the ledger sum (100).  The review-completion write path
breaks the same invariant. -/
theorem C5_bug :
    CacheConsistent (initState 1) ∧
    ¬ CacheConsistent (run_op (initState 1) (.slideProgress 3 100 2 2 4)) ∧
    xp_ledger_total (run_op (initState 1) (.slideProgress 3 100 2 2 4)) = 100 ∧
    (run_op (initState 1) (.slideProgress 3 100 2 2 4)).user.total_xp = 0 ∧
    ¬ CacheConsistent (run_op (initState 1) (.reviewSubmit 7 true 50 5)) := by
  have hrun : run_op (initState 1) (.slideProgress 3 100 2 2 4) =
      { initState 1 with
        lesson_progress :=
          { completion_percentage := ((2 : Nat) : ℚ) / ((2 : Nat) : ℚ) * 100,
            xp_earned := 100, completed_date := some 4 },
        xp_ledger := [⟨100, "lesson", some 3⟩] } := by
    show update_lesson_progress 3 100 2 2 4 (initState 1) = _
    unfold update_lesson_progress
    rw [if_neg (by decide), if_pos ⟨by norm_num, rfl⟩, if_pos (by decide)]
    rfl
  refine ⟨rfl, ?_, ?_, ?_, ?_⟩
  · simp only [CacheConsistent, hrun]
    decide
  · rw [hrun]
    rfl
  · rw [hrun]
    rfl
  · simp only [CacheConsistent]
    decide

/-- C6 failing inputs: `create` saves `last_activity = now` and only then
calls `_update_user_streak`, so the streak update always sees
"last activity today" and never changes the streak.  A fresh user's first
correct submission leaves the streak at 0 (the claim requires 1), and a
user last active yesterday with a 3-day streak stays at 3 (the claim
requires 4). -/
theorem C6_bug :
    (submit_question 1 2 q_mc_single (.choices [1]) 10 (initState 1)).is_correct = true ∧
    (submit_question 1 2 q_mc_single (.choices [1]) 10
      (initState 1)).state.user.last_activity = some 10 ∧
    (submit_question 1 2 q_mc_single (.choices [1]) 10
      (initState 1)).state.user.streak_days = 0 ∧
    st_streak.user.last_activity = some 9 ∧
    st_streak.user.streak_days = 3 ∧
    (submit_question 1 2 q_mc_single (.choices [1]) 10 st_streak).is_correct = true ∧
    (submit_question 1 2 q_mc_single (.choices [1]) 10
      st_streak).state.user.streak_days = 3 := by
  refine ⟨by decide, by decide, by decide, rfl, rfl, by decide, by decide⟩

/-- C9 failing schedule: two concurrent submissions of the same
(user, question, lesson) key that both run their attempt-count read
before either insert both compute `attempt_number = 0 + 1`, producing the
duplicate multiset {1, 1} instead of {1, 2}; the fully serialized
schedule produces 1, 2 as the claim expects. -/
theorem C9_concurrent_duplicate_attempt_numbers :
    (race_run [.read 0, .read 1, .insert 0, .insert 1]).attempt_numbers = [1, 1] ∧
    (race_run (serial_schedule 2)).attempt_numbers = [1, 2] := by
  exact ⟨rfl, rfl⟩

theorem lesson_award_list_append (L : Nat) (l : List UserXP) (t : UserXP) :
    lesson_award_list L (l ++ [t]) =
      lesson_award_list L l +
        (if (t.source_type == "lesson" && t.object_id == some L) = true
          then t.amount else 0) := by
  unfold lesson_award_list
  rw [List.filter_append, List.map_append, List.sum_append]
  congr 1
  split
  · next h => simp [List.filter, h]
  · next h => simp [List.filter, h]

theorem submit_question_frozen (L question_id lesson_id : Nat) (q : Question)
    (answer : AnswerPayload) (today : Int) (st : PipelineState) :
    lesson_award_total L (submit_question question_id lesson_id q answer today st).state =
      lesson_award_total L st ∧
    (submit_question question_id lesson_id q answer today st).state.lesson_progress =
      st.lesson_progress := by
  unfold lesson_award_total
  simp only [submit_question]
  split
  · constructor
    · split
      · rw [lesson_award_list_append]
        simp
      · rfl
    · rfl
  · exact ⟨rfl, rfl⟩

theorem update_course_progress_frozen (L course_id total_lessons completed_lessons : Nat)
    (st : PipelineState) :
    lesson_award_total L (update_course_progress course_id total_lessons completed_lessons st) =
      lesson_award_total L st ∧
    (update_course_progress course_id total_lessons completed_lessons st).lesson_progress =
      st.lesson_progress := by
  unfold lesson_award_total update_course_progress
  cases hE : st.enrollment with
  | none => exact ⟨rfl, rfl⟩
  | some e =>
    dsimp only
    by_cases h0 : total_lessons = 0
    · rw [if_pos h0]
      exact ⟨rfl, rfl⟩
    · rw [if_neg h0]
      split
      · constructor
        · rw [lesson_award_list_append]
          simp
        · rfl
      · exact ⟨rfl, rfl⟩

theorem submit_review_answer_frozen (L review_id : Nat) (is_correct : Bool)
    (xp_available : Nat) (now : Int) (st : PipelineState) :
    lesson_award_total L (submit_review_answer review_id is_correct xp_available now st) =
      lesson_award_total L st ∧
    (submit_review_answer review_id is_correct xp_available now st).lesson_progress =
      st.lesson_progress := by
  unfold lesson_award_total
  simp only [submit_review_answer]
  split <;> split <;>
    first
      | exact ⟨rfl, rfl⟩
      | exact ⟨by rw [lesson_award_list_append]; simp, rfl⟩

theorem lesson_inv_step (L xa : Nat) (st : PipelineState) (op : PipelineOp)
    (hop : LessonOpFor L xa op) (h : LessonInv L xa st) :
    LessonInv L xa (run_op st op) := by
  obtain ⟨h1, h2⟩ := h
  cases op with
  | submitQ question_id lesson_id q answer today =>
    have hf := submit_question_frozen L question_id lesson_id q answer today st
    exact ⟨by rw [show run_op st (.submitQ question_id lesson_id q answer today) =
        (submit_question question_id lesson_id q answer today st).state from rfl,
      hf.1, hf.2, h1], by
      rw [show run_op st (.submitQ question_id lesson_id q answer today) =
        (submit_question question_id lesson_id q answer today st).state from rfl, hf.2]
      exact h2⟩
  | slideProgress lesson_id xp_av total_slides completed_slides now =>
    obtain ⟨rfl, rfl⟩ := hop
    unfold LessonInv lesson_award_total at *
    simp only [run_op, update_lesson_progress]
    by_cases h0 : total_slides = 0
    · rw [if_pos h0]
      exact ⟨h1, h2⟩
    · rw [if_neg h0]
      by_cases hc : (100 : ℚ) ≤ (completed_slides : ℚ) / (total_slides : ℚ) * 100 ∧
          st.lesson_progress.completed_date = none
      · rw [if_pos hc]
        by_cases hlt : st.lesson_progress.xp_earned < xp_av
        · rw [if_pos hlt]
          refine ⟨?_, ?_⟩
          · rw [lesson_award_list_append]
            simp only [beq_self_eq_true, Bool.and_self, if_true]
            rw [h1]
          · simp only []
            omega
        · rw [if_neg hlt]
          exact ⟨h1, h2⟩
      · rw [if_neg hc]
        exact ⟨h1, h2⟩
  | lessonComplete lesson_id course_id xp_av required_slides completed_slides
      total_lessons completed_lessons now =>
    obtain ⟨rfl, rfl⟩ := hop
    simp only [run_op, lesson_complete]
    by_cases hs : completed_slides < required_slides
    · rw [if_pos hs]
      exact ⟨h1, h2⟩
    · rw [if_neg hs]
      by_cases hd : st.lesson_progress.completed_date = none
      · rw [if_pos hd]
        by_cases hlt : st.lesson_progress.xp_earned < xp_av
        · rw [if_pos hlt]
          have hf := update_course_progress_frozen lesson_id course_id total_lessons
            completed_lessons
            { st with
              lesson_progress :=
                { completion_percentage := 100,
                  xp_earned := st.lesson_progress.xp_earned +
                    (xp_av - st.lesson_progress.xp_earned),
                  completed_date := some now },
              xp_ledger := st.xp_ledger ++
                [⟨xp_av - st.lesson_progress.xp_earned, "lesson", some lesson_id⟩],
              user := { st.user with total_xp :=
                st.user.total_xp + (xp_av - st.lesson_progress.xp_earned) } }
          refine ⟨?_, ?_⟩
          · rw [hf.1, hf.2]
            show lesson_award_list lesson_id (st.xp_ledger ++
                [⟨xp_av - st.lesson_progress.xp_earned, "lesson", some lesson_id⟩]) =
              st.lesson_progress.xp_earned + (xp_av - st.lesson_progress.xp_earned)
            rw [lesson_award_list_append]
            simp only [beq_self_eq_true, Bool.and_self, if_true]
            rw [show lesson_award_list lesson_id st.xp_ledger =
              lesson_award_total lesson_id st from rfl, h1]
          · rw [hf.2]
            show st.lesson_progress.xp_earned +
              (xp_av - st.lesson_progress.xp_earned) ≤ xp_av
            omega
        · rw [if_neg hlt]
          have hf := update_course_progress_frozen lesson_id course_id total_lessons
            completed_lessons
            { st with
              lesson_progress :=
                { st.lesson_progress with
                  completion_percentage := 100, completed_date := some now } }
          refine ⟨?_, ?_⟩
          · rw [hf.1, hf.2]
            exact h1
          · rw [hf.2]
            exact h2
      · rw [if_neg hd]
        exact ⟨h1, h2⟩
  | courseProgress course_id total_lessons completed_lessons =>
    have hf := update_course_progress_frozen L course_id total_lessons completed_lessons st
    exact ⟨by rw [show run_op st (.courseProgress course_id total_lessons completed_lessons) =
        update_course_progress course_id total_lessons completed_lessons st from rfl,
      hf.1, hf.2, h1], by
      rw [show run_op st (.courseProgress course_id total_lessons completed_lessons) =
        update_course_progress course_id total_lessons completed_lessons st from rfl, hf.2]
      exact h2⟩
  | reviewSubmit review_id is_correct xp_av now =>
    have hf := submit_review_answer_frozen L review_id is_correct xp_av now st
    exact ⟨by rw [show run_op st (.reviewSubmit review_id is_correct xp_av now) =
        submit_review_answer review_id is_correct xp_av now st from rfl,
      hf.1, hf.2, h1], by
      rw [show run_op st (.reviewSubmit review_id is_correct xp_av now) =
        submit_review_answer review_id is_correct xp_av now st from rfl, hf.2]
      exact h2⟩

theorem lesson_completed_frozen (L : Nat) (st : PipelineState) (op : PipelineOp)
    (d : Int) (hd : st.lesson_progress.completed_date = some d) :
    (run_op st op).lesson_progress.completed_date = some d ∧
    (run_op st op).lesson_progress.xp_earned = st.lesson_progress.xp_earned ∧
    lesson_award_total L (run_op st op) = lesson_award_total L st := by
  cases op with
  | submitQ question_id lesson_id q answer today =>
    simp only [run_op]
    have hf := submit_question_frozen L question_id lesson_id q answer today st
    rw [hf.1, hf.2]
    exact ⟨hd, rfl, rfl⟩
  | slideProgress lesson_id xp_av total_slides completed_slides now =>
    simp only [run_op, update_lesson_progress]
    by_cases h0 : total_slides = 0
    · rw [if_pos h0]
      exact ⟨hd, rfl, rfl⟩
    · rw [if_neg h0, if_neg (by rw [hd]; simp)]
      exact ⟨hd, rfl, rfl⟩
  | lessonComplete lesson_id course_id xp_av required_slides completed_slides
      total_lessons completed_lessons now =>
    simp only [run_op, lesson_complete]
    by_cases hs : completed_slides < required_slides
    · rw [if_pos hs]
      exact ⟨hd, rfl, rfl⟩
    · rw [if_neg hs, if_neg (by rw [hd]; simp)]
      exact ⟨hd, rfl, rfl⟩
  | courseProgress course_id total_lessons completed_lessons =>
    simp only [run_op]
    have hf := update_course_progress_frozen L course_id total_lessons
      completed_lessons st
    rw [hf.1, hf.2]
    exact ⟨hd, rfl, rfl⟩
  | reviewSubmit review_id is_correct xp_av now =>
    simp only [run_op]
    have hf := submit_review_answer_frozen L review_id is_correct xp_av now st
    rw [hf.1, hf.2]
    exact ⟨hd, rfl, rfl⟩

theorem lesson_inv_run (L xa : Nat) (ops : List PipelineOp)
    (hops : ∀ op ∈ ops, LessonOpFor L xa op) (st : PipelineState)
    (h : LessonInv L xa st) : LessonInv L xa (run_ops ops st) := by
  induction ops generalizing st with
  | nil => exact h
  | cons op rest ih =>
    exact ih (fun o ho => hops o (List.mem_cons_of_mem _ ho)) (run_op st op)
      (lesson_inv_step L xa st op (hops op (List.mem_cons_self _ _)) h)

/-- C3: starting from a fresh lesson-progress row, any sequence of
lesson-progress recomputations and lesson-complete calls for the studied
lesson (interleaved with arbitrary question submissions, review
submissions and course-progress updates) awards at most the lesson's
configured `xp_available` in lesson-completion `UserXP` rows in total; the
first recomputation that reaches 100% with the row not yet complete
stamps the completion timestamp and appends the single ledger row
`xp_available - already_earned`; and once the completion timestamp is
set, every further pipeline operation leaves the timestamp, the lesson's
`xp_earned` and the lesson's awarded ledger total unchanged. -/
theorem C3_lesson_completion_awarded_once (lesson_id xp_available : Nat)
    (ops : List PipelineOp)
    (hops : ∀ op ∈ ops, LessonOpFor lesson_id xp_available op) :
    lesson_award_total lesson_id (run_ops ops (initState 1)) ≤ xp_available ∧
    (∀ (st : PipelineState) (total_slides completed_slides : Nat) (now : Int),
      total_slides ≠ 0 →
      (100 : ℚ) ≤ (completed_slides : ℚ) / (total_slides : ℚ) * 100 →
      st.lesson_progress.completed_date = none →
      st.lesson_progress.xp_earned < xp_available →
      (update_lesson_progress lesson_id xp_available total_slides
          completed_slides now st).lesson_progress.completed_date = some now ∧
      (update_lesson_progress lesson_id xp_available total_slides
          completed_slides now st).xp_ledger =
        st.xp_ledger ++
          [⟨xp_available - st.lesson_progress.xp_earned, "lesson", some lesson_id⟩]) ∧
    (∀ (st : PipelineState) (op : PipelineOp) (d : Int),
      st.lesson_progress.completed_date = some d →
      (run_op st op).lesson_progress.completed_date = some d ∧
      (run_op st op).lesson_progress.xp_earned = st.lesson_progress.xp_earned ∧
      lesson_award_total lesson_id (run_op st op) =
        lesson_award_total lesson_id st) := by
  refine ⟨?_, ?_, ?_⟩
  · have h := lesson_inv_run lesson_id xp_available ops hops (initState 1)
      ⟨rfl, Nat.zero_le _⟩
    exact h.1.trans_le h.2
  · intro st total_slides completed_slides now h0 hpct hd hlt
    simp only [update_lesson_progress]
    rw [if_neg h0, if_pos ⟨hpct, hd⟩, if_pos hlt]
    exact ⟨rfl, rfl⟩
  · intro st op d hd
    exact lesson_completed_frozen lesson_id st op d hd

/-- Witness for C3: completing both required slides of the concrete
100-XP lesson, re-running the recompute, then calling lesson-complete,
awards at most 100 XP in total, and the first completing recompute
appends exactly the single 100-XP ledger row. -/
theorem C3_lesson_completion_witness :
    (∀ op ∈ ([.slideProgress 3 100 2 2 4, .slideProgress 3 100 2 2 9,
        .lessonComplete 3 1 100 2 2 1 1 11] : List PipelineOp),
      LessonOpFor 3 100 op) ∧
    lesson_award_total 3 (run_ops [.slideProgress 3 100 2 2 4,
        .slideProgress 3 100 2 2 9, .lessonComplete 3 1 100 2 2 1 1 11]
      (initState 1)) ≤ 100 ∧
    (update_lesson_progress 3 100 2 2 4 (initState 1)).xp_ledger =
      [⟨100, "lesson", some 3⟩] := by
  have h : ∀ op ∈ ([.slideProgress 3 100 2 2 4, .slideProgress 3 100 2 2 9,
      .lessonComplete 3 1 100 2 2 1 1 11] : List PipelineOp),
      LessonOpFor 3 100 op := by
    simp [LessonOpFor]
  refine ⟨h, (C3_lesson_completion_awarded_once 3 100 _ h).1, ?_⟩
  exact ((C3_lesson_completion_awarded_once 3 100 _ h).2.1 (initState 1) 2 2 4
    (by decide) (by norm_num) rfl (by decide)).2
